import Mathlib

/-!
Verification of the Prodizy platform invitation-quota store and the MLflow
chatbot dispatch engine, as a shallow embedding of the Python sources
`backend/models/invitation.py`, `backend/utils/session_store.py` and
`backend/api/mlflow_router.py`.

Machine integers are modelled by `Int` (Python integers are unbounded);
Unix timestamps (Python floats compared with `>`) are modelled by `Int`
time values, which is faithful for every ordering test the code performs.
The SQLite `invitations` table is modelled as a list of rows; `SELECT ...
WHERE code = ?` with `fetchone()` is `List.find?` on the row list and
`UPDATE ... WHERE code = ?` rewrites every row whose key matches.
-/

/-- A single quote character, used to build the user-facing message strings
of the source verbatim. -/
def quo : String := String.mk [Char.ofNat 39]

/-- Row of the `invitations` table (`InvitationCode` pydantic model in
`backend/models/invitation.py`). -/
structure InvitationCode where
  code : String
  created_at : Int
  expires_at : Int
  max_requests : Int
  remaining_requests : Int
  is_active : Bool
  used_by_sessions : List String
deriving DecidableEq

/-- Result dictionary returned by `InvitationStore.validate_code`: either
`{"valid": False, "message": ...}` or the valid-code dictionary carrying
the counters and the `new_session` flag. -/
inductive ValidationResult where
  | invalid (message : String)
  | valid (message : String) (remaining_requests max_requests : Int) (new_session : Bool)
deriving DecidableEq

/-- Message for an unknown invitation code. -/
def invalidCodeMsg : String := "Invalid invitation code."

/-- Message for a deactivated invitation code. -/
def deactivatedMsg : String := "This invitation code has been deactivated."

/-- Message for an expired invitation code. -/
def expiredMsg : String := "This invitation code has expired."

/-- Message for an exhausted invitation code seen by a new session. -/
def requestLimitMsg : String := "This invitation code has reached its request limit."

/-- Message for a valid invitation code. -/
def validCodeMsg : String := "Valid invitation code."

/-- The `SELECT * FROM invitations WHERE code = ?` / `fetchone()` lookup. -/
def findCode? (st : List InvitationCode) (code : String) : Option InvitationCode :=
  st.find? (fun inv => inv.code == code)

/-- `InvitationStore.validate_code` (invitation.py lines 111-179).  The second
component is the database as the call leaves it: every branch closes the
connection without executing a write, so the input table is returned. -/
def validate_code (st : List InvitationCode) (now : Int) (code session_id : String) :
    ValidationResult × List InvitationCode :=
  match findCode? st code with
  | none => (.invalid invalidCodeMsg, st)
  | some inv =>
    if !inv.is_active then (.invalid deactivatedMsg, st)
    else if inv.expires_at < now then (.invalid expiredMsg, st)
    else
      let new_session := !(inv.used_by_sessions.contains session_id)
      if new_session ∧ inv.remaining_requests ≤ 0 then (.invalid requestLimitMsg, st)
      else (.valid validCodeMsg inv.remaining_requests inv.max_requests new_session, st)

/-- `InvitationStore.use_request` (invitation.py lines 181-226): reads the row,
idempotently appends the session id, decrements the counter only when it is
positive, and writes the row back with `UPDATE ... WHERE code = ?`. -/
def use_request (st : List InvitationCode) (code session_id : String) :
    Option Int × List InvitationCode :=
  match findCode? st code with
  | none => (none, st)
  | some inv =>
    let used_by_sessions :=
      if inv.used_by_sessions.contains session_id then inv.used_by_sessions
      else inv.used_by_sessions ++ [session_id]
    let remaining :=
      if 0 < inv.remaining_requests then inv.remaining_requests - 1
      else inv.remaining_requests
    (some remaining,
     st.map (fun i =>
       if i.code = code then
         { i with remaining_requests := remaining, used_by_sessions := used_by_sessions }
       else i))

/-- `InvitationStore.create_invitation_code` (invitation.py lines 70-109), with
the randomly generated code supplied as an argument: the fresh row it inserts. -/
def create_invitation_code (code : String) (now : Int) (max_requests expiry_seconds : Int) :
    InvitationCode :=
  { code := code
    created_at := now
    expires_at := now + expiry_seconds
    max_requests := max_requests
    remaining_requests := max_requests
    is_active := true
    used_by_sessions := [] }

/-- One call against the store: a `validate_code` or a `use_request`. -/
inductive QuotaOp where
  | validateOp (now : Int) (code session_id : String)
  | useOp (code session_id : String)

/-- Effect of one store call on the invitations table. -/
def applyQuotaOp (st : List InvitationCode) : QuotaOp → List InvitationCode
  | .validateOp now code sid => (validate_code st now code sid).2
  | .useOp code sid => (use_request st code sid).2

/-- Effect of a sequence of store calls on the invitations table. -/
def runQuotaOps (st : List InvitationCode) : List QuotaOp → List InvitationCode
  | [] => st
  | op :: ops => runQuotaOps (applyQuotaOp st op) ops

/-- Remaining-request counter of the first row matching a code. -/
def remainingOf (st : List InvitationCode) (code : String) : Option Int :=
  (findCode? st code).map (fun inv => inv.remaining_requests)

/-- All rows of the table carry a non-negative remaining-request counter. -/
def remainingNonneg (st : List InvitationCode) : Prop :=
  ∀ inv ∈ st, 0 ≤ inv.remaining_requests

instance (st : List InvitationCode) : Decidable (remainingNonneg st) :=
  inferInstanceAs (Decidable (∀ inv ∈ st, 0 ≤ inv.remaining_requests))

lemma contains_iff_mem_str {l : List String} {s : String} :
    l.contains s = true ↔ s ∈ l :=
  List.elem_iff

lemma validate_code_snd (st : List InvitationCode) (now : Int) (code sid : String) :
    (validate_code st now code sid).2 = st := by
  unfold validate_code
  cases findCode? st code with
  | none => rfl
  | some inv =>
    simp only
    split
    · rfl
    · split
      · rfl
      · split <;> rfl

lemma find?_filter_of_imp {α : Type} (l : List α) (p q : α → Bool)
    (h : ∀ a, p a = true → q a = true) :
    (l.filter q).find? p = l.find? p := by
  induction l with
  | nil => rfl
  | cons a t ih =>
    by_cases hq : q a = true
    · rw [List.filter_cons_of_pos hq]
      by_cases hp : p a = true
      · rw [List.find?_cons_of_pos _ hp, List.find?_cons_of_pos _ hp]
      · rw [List.find?_cons_of_neg _ hp, List.find?_cons_of_neg _ hp, ih]
    · have hp : p a = false := by
        cases hpa : p a with
        | false => rfl
        | true => exact absurd (h a hpa) hq
      rw [List.filter_cons_of_neg hq, ih,
        List.find?_cons_of_neg _ (by simp [hp])]

lemma findCode?_map_update (st : List InvitationCode)
    (f : InvitationCode → InvitationCode) (hf : ∀ i, (f i).code = i.code) (c : String) :
    findCode? (st.map f) c = (findCode? st c).map f := by
  induction st with
  | nil => rfl
  | cons a t ih =>
    simp only [List.map_cons, findCode?, List.find?]
    rw [hf a]
    cases a.code == c with
    | true => rfl
    | false => exact ih

lemma use_request_code_eq (inv : InvitationCode) (rem : Int) (used : List String)
    (code : String) :
    ((if inv.code = code then
        { inv with remaining_requests := rem, used_by_sessions := used }
      else inv) : InvitationCode).code = inv.code := by
  split <;> rfl

lemma applyQuotaOp_find (st : List InvitationCode) (op : QuotaOp) (c : String)
    (inv : InvitationCode) (hfind : findCode? st c = some inv) :
    ∃ inv', findCode? (applyQuotaOp st op) c = some inv' ∧
      inv'.remaining_requests ≤ inv.remaining_requests := by
  cases op with
  | validateOp now code sid =>
    refine ⟨inv, ?_, le_refl _⟩
    simpa [applyQuotaOp, validate_code_snd] using hfind
  | useOp code sid =>
    cases h0 : findCode? st code with
    | none =>
      refine ⟨inv, ?_, le_refl _⟩
      simp only [applyQuotaOp, use_request, h0]
      exact hfind
    | some inv0 =>
      have hmap : applyQuotaOp st (.useOp code sid) =
          st.map (fun i =>
            if i.code = code then
              { i with
                remaining_requests :=
                  if 0 < inv0.remaining_requests then inv0.remaining_requests - 1
                  else inv0.remaining_requests,
                used_by_sessions :=
                  if inv0.used_by_sessions.contains sid then inv0.used_by_sessions
                  else inv0.used_by_sessions ++ [sid] }
            else i) := by
        simp only [applyQuotaOp, use_request, h0]
      rw [hmap, findCode?_map_update _ _ (fun i => use_request_code_eq i _ _ _) c, hfind]
      simp only [Option.map_some']
      refine ⟨_, rfl, ?_⟩
      by_cases hc : inv.code = code
      · have hcc : c = code := by
          have h1 := List.find?_some hfind
          have hc' : inv.code = c := by simpa using h1
          rw [← hc', hc]
        have heq : inv0 = inv := by
          rw [hcc] at hfind
          rw [hfind] at h0
          exact (Option.some_inj.mp h0).symm
        subst heq
        simp only [if_pos hc]
        split
        · omega
        · exact le_refl _
      · simp only [if_neg hc]
        exact le_refl _

lemma applyQuotaOp_nonneg (st : List InvitationCode) (op : QuotaOp)
    (h : remainingNonneg st) : remainingNonneg (applyQuotaOp st op) := by
  cases op with
  | validateOp now code sid =>
    simpa [applyQuotaOp, validate_code_snd] using h
  | useOp code sid =>
    cases h0 : findCode? st code with
    | none =>
      simpa [applyQuotaOp, use_request, h0] using h
    | some inv0 =>
      intro j hj
      simp only [applyQuotaOp, use_request, h0, List.mem_map] at hj
      obtain ⟨i, hi, hij⟩ := hj
      have hinv0 : inv0 ∈ st := List.mem_of_find?_eq_some h0
      have h0' := h inv0 hinv0
      have hi' := h i hi
      subst hij
      split
      · simp only
        split <;> omega
      · exact hi'

lemma runQuotaOps_find (ops : List QuotaOp) (st : List InvitationCode) (c : String)
    (inv : InvitationCode) (hfind : findCode? st c = some inv) :
    ∃ inv', findCode? (runQuotaOps st ops) c = some inv' ∧
      inv'.remaining_requests ≤ inv.remaining_requests := by
  induction ops generalizing st inv with
  | nil => exact ⟨inv, hfind, le_refl _⟩
  | cons op ops ih =>
    obtain ⟨inv1, h1, hle1⟩ := applyQuotaOp_find st op c inv hfind
    obtain ⟨inv2, h2, hle2⟩ := ih (applyQuotaOp st op) inv1 h1
    exact ⟨inv2, h2, le_trans hle2 hle1⟩

lemma runQuotaOps_nonneg (ops : List QuotaOp) (st : List InvitationCode)
    (h : remainingNonneg st) : remainingNonneg (runQuotaOps st ops) := by
  induction ops generalizing st with
  | nil => exact h
  | cons op ops ih => exact ih _ (applyQuotaOp_nonneg st op h)

/-- Demo token: zero remaining requests, session s1 already admitted. -/
def tokenExhausted : InvitationCode :=
  { code := "abcd1234", created_at := 0, expires_at := 1000, max_requests := 10,
    remaining_requests := 0, is_active := true, used_by_sessions := ["s1"] }

/-- Demo token: active with requests left, expiring at time 1000. -/
def tokenFresh : InvitationCode :=
  { code := "abcd1234", created_at := 0, expires_at := 1000, max_requests := 10,
    remaining_requests := 7, is_active := true, used_by_sessions := [] }

/-- Demo token: deactivated and also expired at time 2000. -/
def tokenInactive : InvitationCode :=
  { code := "abcd1234", created_at := 0, expires_at := 1000, max_requests := 10,
    remaining_requests := 7, is_active := false, used_by_sessions := [] }

/-- C3: for an active, unexpired token, `validate_code` fails with the
request-limit message exactly when the session is new and the counter is
non-positive, and a session already recorded in `used_by_sessions` validates
successfully even at zero remaining requests. -/
theorem validate_request_limit_iff (st : List InvitationCode) (now : Int)
    (code sid : String) (inv : InvitationCode)
    (hfind : findCode? st code = some inv)
    (hact : inv.is_active = true)
    (hexp : ¬ inv.expires_at < now) :
    ((validate_code st now code sid).1 = .invalid requestLimitMsg ↔
      sid ∉ inv.used_by_sessions ∧ inv.remaining_requests ≤ 0) ∧
    (sid ∈ inv.used_by_sessions →
      (validate_code st now code sid).1 =
        .valid validCodeMsg inv.remaining_requests inv.max_requests false) := by
  unfold validate_code
  rw [hfind]
  simp only [hact, Bool.not_true, Bool.false_eq_true, if_false, if_neg hexp]
  constructor
  · constructor
    · intro hres
      by_cases hcond : (!(inv.used_by_sessions.contains sid)) = true ∧
          inv.remaining_requests ≤ 0
      · refine ⟨?_, hcond.2⟩
        intro hmem'
        have hc := contains_iff_mem_str.mpr hmem'
        rw [hc] at hcond
        simp at hcond
      · rw [if_neg hcond] at hres
        exact absurd hres (by simp)
    · intro hand
      have hc : inv.used_by_sessions.contains sid = false := by
        cases h : inv.used_by_sessions.contains sid with
        | false => rfl
        | true => exact absurd (contains_iff_mem_str.mp h) hand.1
      rw [if_pos ⟨by rw [hc]; rfl, hand.2⟩]
  · intro hmem'
    have hc : inv.used_by_sessions.contains sid = true := contains_iff_mem_str.mpr hmem'
    rw [if_neg (by rw [hc]; simp)]
    rw [hc]
    rfl

/-- Witness for C3 at a concrete store: a session already in
`used_by_sessions` of a token with zero remaining requests. -/
theorem validate_request_limit_iff_witness :
    (findCode? [tokenExhausted] "abcd1234" = some tokenExhausted ∧
      tokenExhausted.is_active = true ∧ ¬ tokenExhausted.expires_at < 5) ∧
    ((validate_code [tokenExhausted] 5 "abcd1234" "s1").1 = .invalid requestLimitMsg ↔
      "s1" ∉ tokenExhausted.used_by_sessions ∧ tokenExhausted.remaining_requests ≤ 0) ∧
    ("s1" ∈ tokenExhausted.used_by_sessions →
      (validate_code [tokenExhausted] 5 "abcd1234" "s1").1 =
        .valid validCodeMsg tokenExhausted.remaining_requests
          tokenExhausted.max_requests false) :=
  ⟨by decide, validate_request_limit_iff [tokenExhausted] 5 "abcd1234" "s1"
    tokenExhausted (by decide) (by decide) (by decide)⟩

/-- C6: for an existing, active token past its expiry, `validate_code` returns
invalid with the expired message, whatever the counter and session id. -/
theorem validate_expired (st : List InvitationCode) (now : Int)
    (code sid : String) (inv : InvitationCode)
    (hfind : findCode? st code = some inv)
    (hact : inv.is_active = true)
    (hexp : inv.expires_at < now) :
    (validate_code st now code sid).1 = .invalid expiredMsg := by
  unfold validate_code
  rw [hfind]
  simp [hact, hexp]

/-- Witness for C6: an expired yet active token with requests left. -/
theorem validate_expired_witness :
    (findCode? [tokenFresh] "abcd1234" = some tokenFresh ∧
      tokenFresh.is_active = true ∧ tokenFresh.expires_at < 2000) ∧
    (validate_code [tokenFresh] 2000 "abcd1234" "s9").1 = .invalid expiredMsg :=
  ⟨by decide, validate_expired [tokenFresh] 2000 "abcd1234" "s9" tokenFresh
    (by decide) (by decide) (by decide)⟩

/-- C10: the deactivation check precedes the expiry check, so a token that is
both inactive and expired yields the deactivated message, not the expired one. -/
theorem validate_deactivated_precedes_expired (st : List InvitationCode) (now : Int)
    (code sid : String) (inv : InvitationCode)
    (hfind : findCode? st code = some inv)
    (hact : inv.is_active = false)
    (hexp : inv.expires_at < now) :
    (validate_code st now code sid).1 = .invalid deactivatedMsg ∧
    (validate_code st now code sid).1 ≠ .invalid expiredMsg := by
  unfold validate_code
  rw [hfind]
  constructor
  · simp [hact]
  · simp only [hact, Bool.not_false, if_true]
    decide

/-- Witness for C10: a token both deactivated and expired. -/
theorem validate_deactivated_precedes_expired_witness :
    (findCode? [tokenInactive] "abcd1234" = some tokenInactive ∧
      tokenInactive.is_active = false ∧ tokenInactive.expires_at < 2000) ∧
    ((validate_code [tokenInactive] 2000 "abcd1234" "s9").1 = .invalid deactivatedMsg ∧
     (validate_code [tokenInactive] 2000 "abcd1234" "s9").1 ≠ .invalid expiredMsg) :=
  ⟨by decide, validate_deactivated_precedes_expired [tokenInactive] 2000 "abcd1234" "s9"
    tokenInactive (by decide) (by decide) (by decide)⟩

/-- C7: across any sequence of `validate_code` and `use_request` calls the
remaining-request counter of every token is monotonically non-increasing and
never negative, and a single `use_request` returns the counter decremented by
one when it was positive and unchanged (at its floor) otherwise; the call is a
total function, so an exhausted token never raises. -/
theorem quota_monotone_nonneg (ops : List QuotaOp) (st : List InvitationCode)
    (h : remainingNonneg st) :
    remainingNonneg (runQuotaOps st ops) ∧
    (∀ code inv, findCode? st code = some inv →
      ∃ inv', findCode? (runQuotaOps st ops) code = some inv' ∧
        inv'.remaining_requests ≤ inv.remaining_requests) ∧
    (∀ code sid inv, findCode? st code = some inv →
      (use_request st code sid).1 =
        some (if 0 < inv.remaining_requests then inv.remaining_requests - 1
          else inv.remaining_requests)) := by
  refine ⟨runQuotaOps_nonneg ops st h, ?_, ?_⟩
  · intro code inv hfind
    exact runQuotaOps_find ops st code inv hfind
  · intro code sid inv hfind
    unfold use_request
    rw [hfind]

/-- Witness for C7: a freshly issued two-request token driven through three
consumptions and a validation. -/
theorem quota_monotone_nonneg_witness :
    remainingNonneg [create_invitation_code "abcd1234" 0 2 3600] ∧
    (remainingNonneg (runQuotaOps [create_invitation_code "abcd1234" 0 2 3600]
        [.useOp "abcd1234" "s1", .useOp "abcd1234" "s2",
         .validateOp 10 "abcd1234" "s3", .useOp "abcd1234" "s3"]) ∧
     (∀ code inv, findCode? [create_invitation_code "abcd1234" 0 2 3600] code = some inv →
       ∃ inv', findCode? (runQuotaOps [create_invitation_code "abcd1234" 0 2 3600]
           [.useOp "abcd1234" "s1", .useOp "abcd1234" "s2",
            .validateOp 10 "abcd1234" "s3", .useOp "abcd1234" "s3"]) code = some inv' ∧
         inv'.remaining_requests ≤ inv.remaining_requests) ∧
     (∀ code sid inv, findCode? [create_invitation_code "abcd1234" 0 2 3600] code = some inv →
       (use_request [create_invitation_code "abcd1234" 0 2 3600] code sid).1 =
         some (if 0 < inv.remaining_requests then inv.remaining_requests - 1
           else inv.remaining_requests))) :=
  ⟨by decide, quota_monotone_nonneg _ _ (by decide)⟩

/-- C8: `validate_code` is read-only: the table it returns is the table it was
given, so every field of every token is unchanged, and a repeated call with no
intervening `use_request` returns the identical result. -/
theorem validate_code_pure (st : List InvitationCode) (now : Int) (code sid : String) :
    (validate_code st now code sid).2 = st ∧
    (∀ c, findCode? ((validate_code st now code sid).2) c = findCode? st c) ∧
    validate_code ((validate_code st now code sid).2) now code sid =
      validate_code st now code sid := by
  have h := validate_code_snd st now code sid
  exact ⟨h, fun c => by rw [h], by rw [h]⟩

/-!
Embedding of the chatbot turn in `backend/api/mlflow_router.py`
(`chatbot_mlflow`) and of the session store in
`backend/utils/session_store.py`.

Entity values are the JSON values the router actually manipulates: strings,
integers, lists of strings, and null.  Python truthiness tests (`if not x`)
are `truthy`/`otruthy`; `dict.get` with and without a default are `eget` and
`egetD`.  The external collaborators (the tracking client functions of
`backend/core/services/mlflow_service.py`, the LLM call, `json.loads`, and
the Python `float` builtin) are abstracted as function-valued parameters,
and every tracking-client invocation is recorded in an event list so that
theorems can speak about which calls a turn performs.
-/

/-- JSON value shapes the router reads out of the classifier entities. -/
inductive EVal where
  | str (v : String)
  | int (v : Int)
  | strList (v : List String)
  | null
deriving DecidableEq

/-- Entity dictionary of a parsed classifier response. -/
abbrev Entities := List (String × EVal)

/-- Python `entities.get(k)`: the stored value (possibly null) or `none` when
the key is absent. -/
def eget (e : Entities) (k : String) : Option EVal :=
  (e.find? (fun kv => kv.1 == k)).map (fun kv => kv.2)

/-- Python `entities.get(k, d)`: the stored value when the key is present,
the default otherwise. -/
def egetD (e : Entities) (k : String) (d : Option EVal) : Option EVal :=
  match e.find? (fun kv => kv.1 == k) with
  | some kv => some kv.2
  | none => d

/-- Python truthiness of a JSON value. -/
def truthy : EVal → Bool
  | .str v => !(v == "")
  | .int v => !(v == 0)
  | .strList v => !v.isEmpty
  | .null => false

/-- Python truthiness of a possibly-absent value (`None` is falsy). -/
def otruthy : Option EVal → Bool
  | none => false
  | some v => truthy v

/-- Python `a or b` on possibly-absent values: the first operand when it is
truthy, the second otherwise. -/
def pyOr (a b : Option EVal) : Option EVal :=
  if otruthy a then a else b

/-- Python `str()` of a JSON value, as used by the f-string interpolations. -/
def evStr : EVal → String
  | .str v => v
  | .int v => toString v
  | .strList v => "[" ++ String.intercalate ", " (v.map (fun s => quo ++ s ++ quo)) ++ "]"
  | .null => "None"

/-- The classifier response dictionary after `json.loads`, with the fields the
router reads (`intent` and `confirmation` default to the empty string when
absent, `entities` to the empty dictionary). -/
structure ParsedResponse where
  intent : String
  confirmation : String
  message : String
  entities : Entities
deriving DecidableEq

/-- One invocation of a tracking-client operation
(`backend/core/services/mlflow_service.py`), with the argument values the
router passed. -/
inductive TrackCall where
  | createExperimentCall (experiment_name : EVal)
  | createRunCall (experiment_id : EVal) (run_name : Option EVal)
  | lookupExperimentCall (experiment_name : EVal)
  | deleteExperimentCall (experiment_id : EVal)
  | deleteRunCall (run_id : EVal)
  | logParamCall (run_id param_key : EVal) (param_value : String)
  | logMetricCall (run_id metric_key : EVal) (value : Int) (step : EVal)
deriving DecidableEq

/-- External collaborators of the dispatch engine: the tracking-client
operations (each returning the success flag, message and payload of the
corresponding `mlflow_service` function) and the Python `float` builtin
(`none` models a `ValueError`; float values are carried opaquely as `Int`
since the router only passes them through). -/
structure ExtServices where
  create_experiment : EVal → Bool × String
  create_run : EVal → Option EVal → Bool × String × Option String
  get_experiment_id_by_name : EVal → Option String
  delete_experiment : EVal → Bool × String
  delete_run : EVal → Bool × String
  log_param : EVal → EVal → String → Bool × String
  log_metric : EVal → EVal → Int → EVal → Bool × String
  pyFloat : EVal → Option Int

/-- One per-name result of `mlflow_service.batch_create_experiments`. -/
structure BatchResult where
  experiment_name : String
  success : Bool
  result : String
deriving DecidableEq

/-- `mlflow_service.batch_create_experiments` (lines 435-453): one
`create_experiment` call per name, in order. -/
def batch_create_experiments (ext : ExtServices) (experiment_names : List String) :
    List BatchResult :=
  experiment_names.map (fun name =>
    { experiment_name := name,
      success := (ext.create_experiment (.str name)).1,
      result := (ext.create_experiment (.str name)).2 })

/-- Per-session key/value scratchpad (`session_data[session_id]`). -/
abbrev SData := List (String × EVal)

/-- Python `key in sdata` and `sdata[key]` combined: the stored value when the
key is present. -/
def getSD (sd : SData) (k : String) : Option EVal :=
  (sd.find? (fun kv => kv.1 == k)).map (fun kv => kv.2)

/-- `set_session_data`: store a value under a key. -/
def setSD (sd : SData) (k : String) (v : EVal) : SData :=
  (k, v) :: sd.filter (fun kv => kv.1 != k)

/-- Per-session state: conversation transcript (role, content) plus the
scratchpad dictionary (`session_store` and `session_data` in
`backend/utils/session_store.py`). -/
structure Session where
  history : List (String × String)
  data : SData
deriving DecidableEq

/-- The two session dictionaries, keyed by session id, with `defaultdict`
semantics: an absent key reads as an empty session. -/
abbrev Sessions := List (String × Session)

/-- Read a session, defaulting to an empty one. -/
def getSession (ss : Sessions) (sid : String) : Session :=
  match ss.find? (fun kv => kv.1 == sid) with
  | some kv => kv.2
  | none => { history := [], data := [] }

/-- Write a session back under its id. -/
def setSession (ss : Sessions) (sid : String) (s : Session) : Sessions :=
  (sid, s) :: ss.filter (fun kv => kv.1 != sid)

/-- `append_to_conversation`. -/
def appendHistory (ss : Sessions) (sid role content : String) : Sessions :=
  setSession ss sid
    { getSession ss sid with history := (getSession ss sid).history ++ [(role, content)] }

/-- Replace the scratchpad dictionary of one session. -/
def writeSData (ss : Sessions) (sid : String) (d : SData) : Sessions :=
  setSession ss sid { getSession ss sid with data := d }

/-- Outcome of one pass through the intent-handling ladder: the amended
response, the session scratchpad as left behind, and the tracking calls
performed. -/
structure DispatchResult where
  response : ParsedResponse
  sdata : SData
  calls : List TrackCall
deriving DecidableEq

/-- Set `confirmation` to `needs_clarification` and replace the message, as
the clarification arms of the ladder do. -/
def clarify (pr : ParsedResponse) (msg : String) : ParsedResponse :=
  { pr with confirmation := "needs_clarification", message := msg }

/-- Replace only the message, as the success arms of the ladder do. -/
def withMsg (pr : ParsedResponse) (msg : String) : ParsedResponse :=
  { pr with message := msg }

/-- Python `str()` of the optional run id returned by `create_run`. -/
def optRunIdStr : Option String → String
  | some s => s
  | none => "None"

/-- The optional run id as the JSON value stored into the scratchpad. -/
def optRunIdVal : Option String → EVal
  | some s => .str s
  | none => .null

/-- Python `entities.get("step", 0)` in the log_metric arm. -/
def stepOf (e : Entities) : EVal :=
  match eget e "step" with
  | some v => v
  | none => .int 0

/-- Clarification message for a missing experiment name (create_experiment). -/
def missingExpNameMsg : String :=
  "Please provide an experiment name. For example: " ++ quo ++ "my_experiment" ++ quo ++ "."

/-- Clarification message for a missing experiment name
(create_experiment_and_start_run). -/
def expNameForRunMsg : String :=
  "Please provide an experiment name so we can create it and start a run.\ne.g. " ++
    quo ++ "my_experiment" ++ quo

/-- Clarification message for a missing experiment reference (create_run). -/
def createRunNeedsExpMsg : String :=
  "To create a run, please specify either an " ++ quo ++ "experiment_id" ++ quo ++
    " or an " ++ quo ++ "experiment_name" ++ quo ++ ".\ne.g. " ++ quo ++ "my_experiment" ++ quo

/-- Clarification message when no run id is available for log_metric. -/
def metricNeedsRunIdMsg : String :=
  "We need a " ++ quo ++ "run_id" ++ quo ++
    " to log the metric, and none is stored. Please provide an actual run_id."

/-- Clarification message when the metric value is missing. -/
def needsMetricValueMsg : String :=
  "We need a metric value (e.g. " ++ quo ++ "0.95" ++ quo ++ ")."

/-- Clarification message naming a metric value that failed float coercion. -/
def metricNotNumberMsg (v : EVal) : String :=
  "The provided metric value " ++ quo ++ evStr v ++ quo ++ " isn" ++ quo ++ "t a number."

/-- Clarification message for a missing batch name list. -/
def noBatchNamesMsg : String := "Please provide a list of experiment names to create."

/-- Clarification message when every batch creation failed. -/
def batchAllFailedMsg : String := "‚ùå Failed to create any experiments."

/-- Success message of a fully successful experiment batch. -/
def batchAllMessage (names ids : List String) : String :=
  "‚úÖ Successfully created all " ++ toString names.length ++ " experiments:\n\n" ++
    String.intercalate "\n"
      ((names.zip ids).map (fun p => "‚Ä¢ " ++ p.1 ++ " (ID: " ++ p.2 ++ ")"))

/-- Mixed-outcome message of a partially successful experiment batch: it
enumerates one line per successful item and one line per failed item. -/
def batchMixedMessage (names : List String) (results : List BatchResult)
    (successful : Nat) : String :=
  "‚ö†Ô∏è Created " ++ toString successful ++ " out of " ++ toString names.length ++
    " experiments.\n\n" ++ "Successful:\n" ++
    String.intercalate "\n" (results.filterMap (fun r =>
      if r.success then some ("‚Ä¢ " ++ r.experiment_name ++ " (ID: " ++ r.result ++ ")")
      else none)) ++
    "\n\n" ++ "Failed:\n" ++
    String.intercalate "\n" (results.filterMap (fun r =>
      if r.success then none
      else some ("‚Ä¢ " ++ r.experiment_name ++ " (Error: " ++ r.result ++ ")")))

/-- The `create_experiment` arm of the ladder (mlflow_router.py lines 333-348). -/
def createExperimentBranch (ext : ExtServices) (sdata : SData) (pr : ParsedResponse) :
    DispatchResult :=
  match eget pr.entities "experiment_name" with
  | some nameVal =>
    if truthy nameVal then
      let r := ext.create_experiment nameVal
      if r.1 then
        ⟨withMsg pr ("‚úÖ Experiment " ++ quo ++ evStr nameVal ++ quo ++
          " created with ID: " ++ r.2 ++ "."), sdata, [.createExperimentCall nameVal]⟩
      else
        ⟨clarify pr ("‚ùå Failed to create experiment: " ++ r.2), sdata,
         [.createExperimentCall nameVal]⟩
    else ⟨clarify pr missingExpNameMsg, sdata, []⟩
  | none => ⟨clarify pr missingExpNameMsg, sdata, []⟩

/-- The `create_experiment_and_start_run` arm (lines 351-381). -/
def createExperimentAndStartRunBranch (ext : ExtServices) (sdata : SData)
    (pr : ParsedResponse) : DispatchResult :=
  let run_name := eget pr.entities "run_name"
  match eget pr.entities "experiment_name" with
  | some nameVal =>
    if truthy nameVal then
      let e := ext.create_experiment nameVal
      if e.1 then
        let r := ext.create_run (.str e.2) run_name
        if r.1 then
          ⟨withMsg pr ("‚úÖ Created experiment " ++ quo ++ evStr nameVal ++ quo ++
            " (ID: " ++ e.2 ++ ") and started run (ID: " ++ optRunIdStr r.2.2 ++ ")."),
           setSD sdata "current_run_id" (optRunIdVal r.2.2),
           [.createExperimentCall nameVal, .createRunCall (.str e.2) run_name]⟩
        else
          ⟨clarify pr ("‚ùå Created experiment but failed to start run: " ++ r.2.1),
           sdata, [.createExperimentCall nameVal, .createRunCall (.str e.2) run_name]⟩
      else
        ⟨clarify pr ("‚ùå Failed to create experiment: " ++ e.2), sdata,
         [.createExperimentCall nameVal]⟩
    else ⟨clarify pr expNameForRunMsg, sdata, []⟩
  | none => ⟨clarify pr expNameForRunMsg, sdata, []⟩

/-- The `create_run` arm (lines 384-415).  A failed name lookup only sets the
clarification fields and falls through; the final `if experiment_id:` guard
then skips the client call. -/
def createRunBranch (ext : ExtServices) (sdata : SData) (pr : ParsedResponse) :
    DispatchResult :=
  let experiment_id := eget pr.entities "experiment_id"
  let experiment_name := eget pr.entities "experiment_name"
  let run_name := eget pr.entities "run_name"
  if ¬ otruthy experiment_id ∧ ¬ otruthy experiment_name then
    ⟨clarify pr createRunNeedsExpMsg, sdata, []⟩
  else
    match
      (if ¬ otruthy experiment_id ∧ otruthy experiment_name then
        match experiment_name with
        | some nv =>
          match ext.get_experiment_id_by_name nv with
          | none =>
            (clarify pr ("No experiment found named " ++ quo ++ evStr nv ++ quo ++
              ". Please create it first or provide an existing ID."),
             experiment_id, [TrackCall.lookupExperimentCall nv])
          | some fid => (pr, some (EVal.str fid), [TrackCall.lookupExperimentCall nv])
        | none => (pr, experiment_id, [])
      else (pr, experiment_id, ([] : List TrackCall))) with
    | (pr1, eid1, calls1) =>
      match eid1 with
      | some eidv =>
        if truthy eidv then
          let r := ext.create_run eidv run_name
          if r.1 then
            ⟨withMsg pr1 ("‚úÖ " ++ r.2.1), setSD sdata "current_run_id" (optRunIdVal r.2.2),
             calls1 ++ [.createRunCall eidv run_name]⟩
          else
            ⟨clarify pr1 ("‚ùå Failed to create run: " ++ r.2.1), sdata,
             calls1 ++ [.createRunCall eidv run_name]⟩
        else ⟨pr1, sdata, calls1⟩
      | none => ⟨pr1, sdata, calls1⟩

/-- The `delete_experiment` arm (lines 418-449), same lookup shape as
`create_run` but with no scratchpad update. -/
def deleteExperimentBranch (ext : ExtServices) (sdata : SData) (pr : ParsedResponse) :
    DispatchResult :=
  let experiment_id := eget pr.entities "experiment_id"
  let experiment_name := eget pr.entities "experiment_name"
  if ¬ otruthy experiment_id ∧ ¬ otruthy experiment_name then
    ⟨clarify pr ("To delete an experiment, please specify " ++ quo ++ "experiment_id" ++
      quo ++ " or " ++ quo ++ "experiment_name" ++ quo ++ "."), sdata, []⟩
  else
    match
      (if ¬ otruthy experiment_id ∧ otruthy experiment_name then
        match experiment_name with
        | some nv =>
          match ext.get_experiment_id_by_name nv with
          | none =>
            (clarify pr ("No experiment found named " ++ quo ++ evStr nv ++ quo ++
              ". Please provide a valid experiment name/ID."),
             experiment_id, [TrackCall.lookupExperimentCall nv])
          | some fid => (pr, some (EVal.str fid), [TrackCall.lookupExperimentCall nv])
        | none => (pr, experiment_id, [])
      else (pr, experiment_id, ([] : List TrackCall))) with
    | (pr1, eid1, calls1) =>
      match eid1 with
      | some eidv =>
        if truthy eidv then
          let r := ext.delete_experiment eidv
          if r.1 then
            ⟨withMsg pr1 ("‚úÖ " ++ r.2), sdata, calls1 ++ [.deleteExperimentCall eidv]⟩
          else
            ⟨clarify pr1 ("‚ùå Failed to delete experiment: " ++ r.2), sdata,
             calls1 ++ [.deleteExperimentCall eidv]⟩
        else ⟨pr1, sdata, calls1⟩
      | none => ⟨pr1, sdata, calls1⟩

/-- The `delete_run` arm (lines 452-472): falls back to the scratchpad run id
when the entity is falsy, and asks for clarification only when neither is
available. -/
def deleteRunBranch (ext : ExtServices) (sdata : SData) (pr : ParsedResponse) :
    DispatchResult :=
  match (if otruthy (eget pr.entities "run_id") then eget pr.entities "run_id"
         else getSD sdata "current_run_id") with
  | none =>
    ⟨clarify pr ("To delete a run, please provide a run_id, e.g. " ++ quo ++
      "abc123" ++ quo ++ "."), sdata, []⟩
  | some rid =>
    let r := ext.delete_run rid
    if r.1 then ⟨withMsg pr ("‚úÖ " ++ r.2), sdata, [.deleteRunCall rid]⟩
    else ⟨clarify pr ("‚ùå Failed to delete run: " ++ r.2), sdata, [.deleteRunCall rid]⟩

/-- The `log_param` arm (lines 475-505). -/
def logParamBranch (ext : ExtServices) (sdata : SData) (pr : ParsedResponse) :
    DispatchResult :=
  match (if otruthy (eget pr.entities "run_id") then eget pr.entities "run_id"
         else getSD sdata "current_run_id") with
  | none =>
    ⟨clarify pr ("We need a " ++ quo ++ "run_id" ++ quo ++
      " to log this param, and none is stored. Please provide an actual run_id."),
     sdata, []⟩
  | some rid =>
    match pyOr (eget pr.entities "param_key") none, eget pr.entities "param_value" with
    | some kv, some v =>
      if truthy kv then
        if v = .null then
          ⟨clarify pr ("We need the parameter value (e.g. " ++ quo ++ "0.1" ++ quo ++ ")."),
           sdata, []⟩
        else
          let r := ext.log_param rid kv (evStr v)
          if r.1 then ⟨withMsg pr ("‚úÖ " ++ r.2), sdata, [.logParamCall rid kv (evStr v)]⟩
          else ⟨clarify pr ("‚ùå " ++ r.2), sdata, [.logParamCall rid kv (evStr v)]⟩
      else
        ⟨clarify pr ("We need the parameter key (e.g. " ++ quo ++ "alpha" ++ quo ++ ")."),
         sdata, []⟩
    | some kv, none =>
      if truthy kv then
        ⟨clarify pr ("We need the parameter value (e.g. " ++ quo ++ "0.1" ++ quo ++ ")."),
         sdata, []⟩
      else
        ⟨clarify pr ("We need the parameter key (e.g. " ++ quo ++ "alpha" ++ quo ++ ")."),
         sdata, []⟩
    | none, _ =>
      ⟨clarify pr ("We need the parameter key (e.g. " ++ quo ++ "alpha" ++ quo ++ ")."),
       sdata, []⟩

/-- The `log_metric` arm (lines 508-556): key synonyms `metric_name` and
`key`, value synonym `value`, scratchpad fallback for the run id, and float
coercion of the value with a clarification on `ValueError`. -/
def logMetricBranch (ext : ExtServices) (sdata : SData) (pr : ParsedResponse) :
    DispatchResult :=
  match (if otruthy (eget pr.entities "run_id") then eget pr.entities "run_id"
         else getSD sdata "current_run_id") with
  | none => ⟨clarify pr metricNeedsRunIdMsg, sdata, []⟩
  | some rid =>
    match pyOr (eget pr.entities "metric_key")
        (pyOr (eget pr.entities "metric_name") (eget pr.entities "key")),
      egetD pr.entities "metric_value" (eget pr.entities "value") with
    | some kv, some v =>
      if truthy kv then
        if v = .null then ⟨clarify pr needsMetricValueMsg, sdata, []⟩
        else
          match ext.pyFloat v with
          | none => ⟨clarify pr (metricNotNumberMsg v), sdata, []⟩
          | some f =>
            let r := ext.log_metric rid kv f (stepOf pr.entities)
            if r.1 then
              ⟨withMsg pr ("‚úÖ " ++ r.2), sdata, [.logMetricCall rid kv f (stepOf pr.entities)]⟩
            else
              ⟨clarify pr ("‚ùå " ++ r.2), sdata, [.logMetricCall rid kv f (stepOf pr.entities)]⟩
      else
        ⟨clarify pr ("We need the metric name/key (e.g. " ++ quo ++ "accuracy" ++ quo ++ ")."),
         sdata, []⟩
    | some kv, none =>
      if truthy kv then ⟨clarify pr needsMetricValueMsg, sdata, []⟩
      else
        ⟨clarify pr ("We need the metric name/key (e.g. " ++ quo ++ "accuracy" ++ quo ++ ")."),
         sdata, []⟩
    | none, _ =>
      ⟨clarify pr ("We need the metric name/key (e.g. " ++ quo ++ "accuracy" ++ quo ++ ")."),
       sdata, []⟩

/-- The `batch_create_experiments` arm (lines 973-1026). -/
def batchCreateExperimentsBranch (ext : ExtServices) (sdata : SData)
    (pr : ParsedResponse) : DispatchResult :=
  match egetD pr.entities "experiment_names" (some (.strList [])) with
  | some (.strList names) =>
    if names.isEmpty then ⟨clarify pr noBatchNamesMsg, sdata, []⟩
    else
      let results := batch_create_experiments ext names
      let successful := (results.filter (fun r => r.success)).length
      let calls := names.map (fun n => TrackCall.createExperimentCall (.str n))
      if successful = names.length then
        let exp_ids := results.filterMap (fun r => if r.success then some r.result else none)
        ⟨withMsg pr (batchAllMessage names exp_ids),
         setSD sdata "batch_experiment_ids" (.strList exp_ids), calls⟩
      else if 0 < successful then
        ⟨withMsg pr (batchMixedMessage names results successful), sdata, calls⟩
      else ⟨clarify pr batchAllFailedMsg, sdata, calls⟩
  | _ => ⟨clarify pr noBatchNamesMsg, sdata, []⟩

/-- Read-family intents of the ladder arms between `log_metric` and
`batch_create_experiments` (lines 559-970). -/
def readFamilyA : List String :=
  ["get_experiment_details", "list_runs", "list_experiments", "get_mlflow_summary",
   "get_model_versions", "get_model_details", "get_recent_models"]

/-- Read-family intents of the ladder arms after `batch_create_experiments`
(lines 1029-1295). -/
def readFamilyB : List String :=
  ["get_models_with_artifacts", "get_recently_used_models", "get_registered_models",
   "batch_create_runs"]

/-- Every intent guarded by the ladder, in source order. -/
def dispatchIntents : List String :=
  ["create_experiment", "create_experiment_and_start_run", "create_run",
   "delete_experiment", "delete_run", "log_param", "log_metric"] ++
  readFamilyA ++ ["batch_create_experiments"] ++ readFamilyB

/-- Abstraction of the read/list ladder arms (`get_experiment_details`,
`list_runs`, ..., `batch_create_runs`): any function of the response and
scratchpad.  The theorems below either quantify over it or never reach it,
so they hold in particular for the concrete source bodies of those arms. -/
abbrev OtherBranches := SData → ParsedResponse → ParsedResponse × SData × List TrackCall

/-- The intent-handling ladder of `chatbot_mlflow` (lines 333-1295): each arm
fires only on its exact intent string together with `confirmation ==
"confirmed"`; any other combination falls through every guard and the parsed
response is returned unchanged (line 1298). -/
def dispatch (ext : ExtServices) (other : OtherBranches) (sdata : SData)
    (pr : ParsedResponse) : DispatchResult :=
  if pr.intent = "create_experiment" ∧ pr.confirmation = "confirmed" then
    createExperimentBranch ext sdata pr
  else if pr.intent = "create_experiment_and_start_run" ∧ pr.confirmation = "confirmed" then
    createExperimentAndStartRunBranch ext sdata pr
  else if pr.intent = "create_run" ∧ pr.confirmation = "confirmed" then
    createRunBranch ext sdata pr
  else if pr.intent = "delete_experiment" ∧ pr.confirmation = "confirmed" then
    deleteExperimentBranch ext sdata pr
  else if pr.intent = "delete_run" ∧ pr.confirmation = "confirmed" then
    deleteRunBranch ext sdata pr
  else if pr.intent = "log_param" ∧ pr.confirmation = "confirmed" then
    logParamBranch ext sdata pr
  else if pr.intent = "log_metric" ∧ pr.confirmation = "confirmed" then
    logMetricBranch ext sdata pr
  else if pr.intent ∈ readFamilyA ∧ pr.confirmation = "confirmed" then
    match other sdata pr with
    | (r, sd, cs) => ⟨r, sd, cs⟩
  else if pr.intent = "batch_create_experiments" ∧ pr.confirmation = "confirmed" then
    batchCreateExperimentsBranch ext sdata pr
  else if pr.intent ∈ readFamilyB ∧ pr.confirmation = "confirmed" then
    match other sdata pr with
    | (r, sd, cs) => ⟨r, sd, cs⟩
  else ⟨pr, sdata, []⟩

/-- Per-turn external inputs: the LLM call outcome (`generate_chat_response`,
an `Except` whose error is the exception text) and the JSON parse of the raw
response (`json.loads` plus the `.get` field reads; `none` is a
`JSONDecodeError`).  The prompt assembly of lines 138-255 only feeds the
external classifier and does not influence the turn otherwise, so it is not
modelled. -/
structure TurnEnv where
  classifier : Except String String
  parseJson : String → Option ParsedResponse

/-- Observable outcome of one `chatbot_mlflow` turn: the response returned as
`assistant_response`, the invitation table and session stores left behind,
the tracking calls performed, and how many times `use_request` was invoked. -/
structure TurnResult where
  response : ParsedResponse
  invStore : List InvitationCode
  sessions : Sessions
  calls : List TrackCall
  useRequestCount : Nat

/-- The `chatbot_mlflow` endpoint (mlflow_router.py lines 89-1298): invitation
validation, history append, scratchpad bookkeeping, LLM call, quota
consumption, JSON parse, and the intent ladder, in source order. -/
def chatbot_mlflow (env : TurnEnv) (ext : ExtServices) (other : OtherBranches)
    (now : Int) (invStore : List InvitationCode) (sessions : Sessions)
    (session_id user_query invitation_code : String) : TurnResult :=
  match (validate_code invStore now invitation_code session_id).1 with
  | .invalid vmsg =>
    { response :=
        { intent := "error", confirmation := "needs_clarification",
          message := "Invitation code error: " ++ vmsg ++ " " ++
            "            Please contact hey@prodizyplatform.in to request a new invitation code.",
          entities := [] },
      invStore := (validate_code invStore now invitation_code session_id).2,
      sessions := sessions, calls := [], useRequestCount := 0 }
  | .valid _ remaining max_requests _ =>
    let store1 := (validate_code invStore now invitation_code session_id).2
    let sessions1 := appendHistory sessions session_id "user" user_query
    let sdata3 :=
      setSD (setSD (setSD (getSession sessions1 session_id).data
        "remaining_requests" (.int remaining))
        "max_requests" (.int max_requests))
        "invitation_code" (.str invitation_code)
    let sessions2 := writeSData sessions1 session_id sdata3
    match env.classifier with
    | .error e =>
      { response :=
          { intent := "error", confirmation := "needs_clarification",
            message := "Error accessing LLM: " ++ e, entities := [] },
        invStore := store1, sessions := sessions2, calls := [], useRequestCount := 0 }
    | .ok raw =>
      let sessions3 := appendHistory sessions2 session_id "assistant" raw
      let used := use_request store1 invitation_code session_id
      let sdata4 := setSD sdata3 "remaining_requests"
        (match used.1 with | some r => .int r | none => .null)
      let sessions4 := writeSData sessions3 session_id sdata4
      match env.parseJson raw with
      | none =>
        { response :=
            { intent := "unknown", confirmation := "needs_clarification",
              message := "Failed to parse JSON: " ++ raw, entities := [] },
          invStore := used.2, sessions := sessions4, calls := [], useRequestCount := 1 }
      | some pr =>
        let d := dispatch ext other sdata4 pr
        { response := d.response, invStore := used.2,
          sessions := writeSData sessions4 session_id d.sdata,
          calls := d.calls, useRequestCount := 1 }

lemma egetD_of_eget (e : Entities) (k : String) (v : EVal) (d : Option EVal)
    (h : eget e k = some v) : egetD e k d = some v := by
  unfold eget at h
  unfold egetD
  cases hf : e.find? (fun kv => kv.1 == k) with
  | none => rw [hf] at h; simp at h
  | some kv =>
    rw [hf] at h
    simp only [Option.map_some', Option.some_inj] at h
    exact congrArg some h

lemma getSession_setSession_self (ss : Sessions) (sid : String) (s : Session) :
    getSession (setSession ss sid s) sid = s := by
  unfold getSession setSession
  rw [List.find?_cons_of_pos _ (by simp)]

lemma getSD_setSD_self (sd : SData) (k : String) (v : EVal) :
    getSD (setSD sd k v) k = some v := by
  unfold getSD setSD
  rw [List.find?_cons_of_pos _ (by simp)]
  rfl

lemma getSD_setSD_ne (sd : SData) (k : String) (v : EVal) (k' : String) (h : k' ≠ k) :
    getSD (setSD sd k v) k' = getSD sd k' := by
  unfold getSD setSD
  rw [List.find?_cons_of_neg _ (by
    simp only [beq_iff_eq]
    first
    | exact h
    | exact Ne.symm h)]
  rw [find?_filter_of_imp sd _ _ (fun a hp => by
    have h1 : a.1 = k' := by simpa [beq_iff_eq] using hp
    simp only [bne_iff_ne, h1, ne_eq]
    first
    | exact h
    | exact Ne.symm h)]

lemma data_writeSData_self (ss : Sessions) (sid : String) (d : SData) :
    (getSession (writeSData ss sid d) sid).data = d := by
  unfold writeSData
  rw [getSession_setSession_self]

lemma data_appendHistory (ss : Sessions) (sid role content : String) :
    (getSession (appendHistory ss sid role content) sid).data =
      (getSession ss sid).data := by
  unfold appendHistory
  rw [getSession_setSession_self]

lemma dispatch_eq_createRun (ext : ExtServices) (other : OtherBranches) (sdata : SData)
    (pr : ParsedResponse)
    (hi : pr.intent = "create_run") (hc : pr.confirmation = "confirmed") :
    dispatch ext other sdata pr = createRunBranch ext sdata pr := by
  unfold dispatch
  rw [hi, hc]
  rw [if_neg (by decide), if_neg (by decide), if_pos (by decide)]

lemma dispatch_eq_logMetric (ext : ExtServices) (other : OtherBranches) (sdata : SData)
    (pr : ParsedResponse)
    (hi : pr.intent = "log_metric") (hc : pr.confirmation = "confirmed") :
    dispatch ext other sdata pr = logMetricBranch ext sdata pr := by
  unfold dispatch
  rw [hi, hc]
  rw [if_neg (by decide), if_neg (by decide), if_neg (by decide), if_neg (by decide),
    if_neg (by decide), if_neg (by decide), if_pos (by decide)]

lemma dispatch_eq_batch (ext : ExtServices) (other : OtherBranches) (sdata : SData)
    (pr : ParsedResponse)
    (hi : pr.intent = "batch_create_experiments") (hc : pr.confirmation = "confirmed") :
    dispatch ext other sdata pr = batchCreateExperimentsBranch ext sdata pr := by
  unfold dispatch
  rw [hi, hc]
  rw [if_neg (by decide), if_neg (by decide), if_neg (by decide), if_neg (by decide),
    if_neg (by decide), if_neg (by decide), if_neg (by decide), if_neg (by decide),
    if_pos (by decide)]

lemma dispatch_fallthrough (ext : ExtServices) (other : OtherBranches) (sdata : SData)
    (pr : ParsedResponse) (hni : pr.intent ∉ dispatchIntents) :
    dispatch ext other sdata pr = ⟨pr, sdata, []⟩ := by
  have hA : ¬ (pr.intent ∈ readFamilyA) := fun h => hni (by
    unfold dispatchIntents
    simp only [List.mem_append]
    tauto)
  have hB : ¬ (pr.intent ∈ readFamilyB) := fun h => hni (by
    unfold dispatchIntents
    simp only [List.mem_append]
    tauto)
  have hne : ∀ s : String, s ∈ dispatchIntents → pr.intent ≠ s := fun s hs he =>
    hni (he ▸ hs)
  unfold dispatch
  rw [if_neg (fun hcond => hne _ (by decide) hcond.1),
    if_neg (fun hcond => hne _ (by decide) hcond.1),
    if_neg (fun hcond => hne _ (by decide) hcond.1),
    if_neg (fun hcond => hne _ (by decide) hcond.1),
    if_neg (fun hcond => hne _ (by decide) hcond.1),
    if_neg (fun hcond => hne _ (by decide) hcond.1),
    if_neg (fun hcond => hne _ (by decide) hcond.1),
    if_neg (fun hcond => hA hcond.1),
    if_neg (fun hcond => hne _ (by decide) hcond.1),
    if_neg (fun hcond => hB hcond.1)]

/-- The scratchpad dictionary as it stands when the ladder runs: the session
data after the bookkeeping writes of steps 6 and 8 of `chatbot_mlflow`
(remaining/max counters, invitation code, and the post-consumption counter). -/
def turnSData (st : List InvitationCode) (ss : Sessions) (now : Int)
    (sid q code : String) (remaining mx : Int) : SData :=
  setSD (setSD (setSD (setSD (getSession (appendHistory ss sid "user" q) sid).data
    "remaining_requests" (.int remaining)) "max_requests" (.int mx))
    "invitation_code" (.str code)) "remaining_requests"
    (match (use_request (validate_code st now code sid).2 code sid).1 with
     | some rr => .int rr
     | none => .null)

lemma chatbot_ok_projections (env : TurnEnv) (ext : ExtServices) (other : OtherBranches)
    (now : Int) (st : List InvitationCode) (ss : Sessions) (sid q code raw : String)
    (pr : ParsedResponse) (m : String) (r mx : Int) (b : Bool)
    (hval : (validate_code st now code sid).1 = .valid m r mx b)
    (hcl : env.classifier = .ok raw)
    (hp : env.parseJson raw = some pr) :
    (chatbot_mlflow env ext other now st ss sid q code).response =
      (dispatch ext other (turnSData st ss now sid q code r mx) pr).response ∧
    (chatbot_mlflow env ext other now st ss sid q code).calls =
      (dispatch ext other (turnSData st ss now sid q code r mx) pr).calls ∧
    (getSession (chatbot_mlflow env ext other now st ss sid q code).sessions sid).data =
      (dispatch ext other (turnSData st ss now sid q code r mx) pr).sdata ∧
    (chatbot_mlflow env ext other now st ss sid q code).invStore =
      (use_request (validate_code st now code sid).2 code sid).2 ∧
    (chatbot_mlflow env ext other now st ss sid q code).useRequestCount = 1 := by
  simp [chatbot_mlflow, hval, hcl, hp, turnSData, data_writeSData_self]

/-- Tracking client whose every operation fails and whose float builtin
always raises: the least helpful environment. -/
def extNone : ExtServices :=
  { create_experiment := fun _ => (false, "unavailable"),
    create_run := fun _ _ => (false, "unavailable", none),
    get_experiment_id_by_name := fun _ => none,
    delete_experiment := fun _ => (false, "unavailable"),
    delete_run := fun _ => (false, "unavailable"),
    log_param := fun _ _ _ => (false, "unavailable"),
    log_metric := fun _ _ _ _ => (false, "unavailable"),
    pyFloat := fun _ => none }

/-- Read-family arms that leave everything unchanged, for concrete runs. -/
def idOther : OtherBranches := fun sd pr => (pr, sd, [])

/-- Turn environment whose LLM call raises. -/
def envErr : TurnEnv := { classifier := .error "boom", parseJson := fun _ => none }

/-- A classifier response whose intent string is outside the ladder. -/
def fooIntentResponse : ParsedResponse :=
  { intent := "foobar", confirmation := "confirmed", message := "ok", entities := [] }

/-- Turn environment whose LLM call succeeds and parses to
`fooIntentResponse`. -/
def envFoo : TurnEnv :=
  { classifier := .ok "raw-response", parseJson := fun _ => some fooIntentResponse }

/-- C1 counterexample: a turn whose classifier supplies the out-of-taxonomy
intent `foobar` with confirmation `confirmed` is returned verbatim: the
outcome intent is `foobar`, not `unknown`, and the confirmation stays
`confirmed` instead of being forced to `needs_clarification`. -/
theorem unknown_intent_counterexample :
    (chatbot_mlflow envFoo extNone idOther 5 [tokenFresh] [] "s1" "query"
      "abcd1234").response.intent = "foobar" ∧
    (chatbot_mlflow envFoo extNone idOther 5 [tokenFresh] [] "s1" "query"
      "abcd1234").response.confirmation = "confirmed" := by
  constructor <;> rfl

/-- C1 as amended: a classifier response whose intent string is outside the
guarded intent set falls through every arm of the ladder and is returned
unchanged, whatever its confirmation value, with no tracking call; only a
JSON parse failure produces intent `unknown` with `needs_clarification`. -/
theorem unknown_intent_passthrough (env : TurnEnv) (ext : ExtServices)
    (other : OtherBranches) (now : Int) (st : List InvitationCode) (ss : Sessions)
    (sid q code raw : String) (pr : ParsedResponse) (m : String) (r mx : Int) (b : Bool)
    (hval : (validate_code st now code sid).1 = .valid m r mx b)
    (hcl : env.classifier = .ok raw)
    (hp : env.parseJson raw = some pr)
    (hni : pr.intent ∉ dispatchIntents) :
    (chatbot_mlflow env ext other now st ss sid q code).response = pr ∧
    (chatbot_mlflow env ext other now st ss sid q code).calls = [] := by
  obtain ⟨hr, hc2, _, _, _⟩ :=
    chatbot_ok_projections env ext other now st ss sid q code raw pr m r mx b hval hcl hp
  rw [hr, hc2, dispatch_fallthrough _ _ _ _ hni]
  exact ⟨rfl, rfl⟩

/-- Witness for the amended C1 at the concrete `foobar` turn. -/
theorem unknown_intent_passthrough_witness :
    ((validate_code [tokenFresh] 5 "abcd1234" "s1").1 = .valid validCodeMsg 7 10 true ∧
     envFoo.classifier = .ok "raw-response" ∧
     envFoo.parseJson "raw-response" = some fooIntentResponse ∧
     fooIntentResponse.intent ∉ dispatchIntents) ∧
    ((chatbot_mlflow envFoo extNone idOther 5 [tokenFresh] [] "s1" "query"
        "abcd1234").response = fooIntentResponse ∧
     (chatbot_mlflow envFoo extNone idOther 5 [tokenFresh] [] "s1" "query"
        "abcd1234").calls = []) :=
  ⟨⟨by decide, rfl, rfl, by decide⟩,
   unknown_intent_passthrough envFoo extNone idOther 5 [tokenFresh] [] "s1" "query"
     "abcd1234" "raw-response" fooIntentResponse validCodeMsg 7 10 true
     (by decide) rfl rfl (by decide)⟩

/-- C2 counterexample: a turn that passes validation and attempts the
classifier call, which raises, consumes no quota (`use_request` is never
reached), contradicting the claim that the quota is consumed whenever the
classifier call is attempted. -/
theorem quota_counterexample_classifier_error :
    (validate_code [tokenFresh] 5 "abcd1234" "s1").1 = .valid validCodeMsg 7 10 true ∧
    (chatbot_mlflow envErr extNone idOther 5 [tokenFresh] [] "s1" "hello"
      "abcd1234").useRequestCount = 0 := by
  constructor
  · decide
  · rfl

/-- C2 as amended: for a turn that passes validation, `use_request` is called
exactly once when the classifier call returns (including when its output
fails to parse as JSON), and zero times when the classifier call itself
raises. -/
theorem quota_consumed_iff_classifier_ok (env : TurnEnv) (ext : ExtServices)
    (other : OtherBranches) (now : Int) (st : List InvitationCode) (ss : Sessions)
    (sid q code : String) (m : String) (r mx : Int) (b : Bool)
    (hval : (validate_code st now code sid).1 = .valid m r mx b) :
    (∀ raw, env.classifier = .ok raw →
      (chatbot_mlflow env ext other now st ss sid q code).useRequestCount = 1) ∧
    (∀ e, env.classifier = .error e →
      (chatbot_mlflow env ext other now st ss sid q code).useRequestCount = 0) := by
  constructor
  · intro raw hcl
    cases hp : env.parseJson raw with
    | none => simp [chatbot_mlflow, hval, hcl, hp]
    | some pr => simp [chatbot_mlflow, hval, hcl, hp]
  · intro e hcl
    simp [chatbot_mlflow, hval, hcl]

/-- Witness for the amended C2 at a concrete turn. -/
theorem quota_consumed_iff_classifier_ok_witness :
    (validate_code [tokenFresh] 5 "abcd1234" "s1").1 = .valid validCodeMsg 7 10 true ∧
    ((∀ raw, envFoo.classifier = .ok raw →
       (chatbot_mlflow envFoo extNone idOther 5 [tokenFresh] [] "s1" "hello"
         "abcd1234").useRequestCount = 1) ∧
     (∀ e, envFoo.classifier = .error e →
       (chatbot_mlflow envFoo extNone idOther 5 [tokenFresh] [] "s1" "hello"
         "abcd1234").useRequestCount = 0)) :=
  ⟨by decide, quota_consumed_iff_classifier_ok envFoo extNone idOther 5 [tokenFresh] []
    "s1" "hello" "abcd1234" validCodeMsg 7 10 true (by decide)⟩

/-- C4: a confirmed `batch_create_experiments` turn with a non-empty name
list keeps confirmation `confirmed` when at least one but not all creations
succeed, with the message enumerating every successful and every failed item
(`batchMixedMessage` lists one line per item of each kind); only when every
creation fails does the outcome become `needs_clarification`. -/
theorem batch_partial_success (ext : ExtServices) (other : OtherBranches) (sdata : SData)
    (pr : ParsedResponse) (names : List String)
    (hi : pr.intent = "batch_create_experiments") (hc : pr.confirmation = "confirmed")
    (he : eget pr.entities "experiment_names" = some (.strList names))
    (hne : names ≠ []) :
    (0 < ((batch_create_experiments ext names).filter (fun r => r.success)).length →
     ((batch_create_experiments ext names).filter (fun r => r.success)).length ≠
        names.length →
      (dispatch ext other sdata pr).response.confirmation = "confirmed" ∧
      (dispatch ext other sdata pr).response.message =
        batchMixedMessage names (batch_create_experiments ext names)
          ((batch_create_experiments ext names).filter (fun r => r.success)).length) ∧
    (((batch_create_experiments ext names).filter (fun r => r.success)).length = 0 →
      (dispatch ext other sdata pr).response.confirmation = "needs_clarification" ∧
      (dispatch ext other sdata pr).response.message = batchAllFailedMsg) := by
  have hdd := dispatch_eq_batch ext other sdata pr hi hc
  have hempty : names.isEmpty = false := by
    cases names with
    | nil => exact absurd rfl hne
    | cons a t => rfl
  have hlen : names.length ≠ 0 := by
    cases names with
    | nil => exact absurd rfl hne
    | cons a t => simp
  constructor
  · intro hpos hnall
    rw [hdd]
    simp only [batchCreateExperimentsBranch]
    rw [egetD_of_eget _ _ _ _ he]
    simp only [hempty, Bool.false_eq_true, if_false]
    rw [if_neg hnall, if_pos hpos]
    exact ⟨by simp [withMsg, hc], rfl⟩
  · intro hz
    rw [hdd]
    simp only [batchCreateExperimentsBranch]
    rw [egetD_of_eget _ _ _ _ he]
    simp only [hempty, Bool.false_eq_true, if_false]
    rw [if_neg (by rw [hz]; exact fun hh => hlen hh.symm),
      if_neg (by rw [hz]; simp)]
    exact ⟨by simp [clarify], rfl⟩

/-- Tracking client for the batch demo: creating `expA` and `expC` succeeds,
anything else fails. -/
def extBatchDemo : ExtServices :=
  { extNone with
    create_experiment := fun v =>
      match v with
      | .str "expA" => (true, "101")
      | .str "expC" => (true, "103")
      | _ => (false, "bad request") }

/-- A confirmed batch-create request for three experiment names. -/
def batchPr : ParsedResponse :=
  { intent := "batch_create_experiments", confirmation := "confirmed", message := "",
    entities := [("experiment_names", .strList ["expA", "expB", "expC"])] }

/-- Witness for C4: three names where exactly one creation fails. -/
theorem batch_partial_success_witness :
    (batchPr.intent = "batch_create_experiments" ∧
     batchPr.confirmation = "confirmed" ∧
     eget batchPr.entities "experiment_names" =
       some (.strList ["expA", "expB", "expC"]) ∧
     ["expA", "expB", "expC"] ≠ ([] : List String)) ∧
    ((0 < ((batch_create_experiments extBatchDemo ["expA", "expB", "expC"]).filter
          (fun r => r.success)).length →
      ((batch_create_experiments extBatchDemo ["expA", "expB", "expC"]).filter
          (fun r => r.success)).length ≠ (["expA", "expB", "expC"] : List String).length →
       (dispatch extBatchDemo idOther [] batchPr).response.confirmation = "confirmed" ∧
       (dispatch extBatchDemo idOther [] batchPr).response.message =
         batchMixedMessage ["expA", "expB", "expC"]
           (batch_create_experiments extBatchDemo ["expA", "expB", "expC"])
           ((batch_create_experiments extBatchDemo ["expA", "expB", "expC"]).filter
             (fun r => r.success)).length) ∧
     (((batch_create_experiments extBatchDemo ["expA", "expB", "expC"]).filter
         (fun r => r.success)).length = 0 →
       (dispatch extBatchDemo idOther [] batchPr).response.confirmation =
         "needs_clarification" ∧
       (dispatch extBatchDemo idOther [] batchPr).response.message = batchAllFailedMsg)) :=
  ⟨⟨rfl, rfl, by decide, by decide⟩,
   batch_partial_success extBatchDemo idOther [] batchPr ["expA", "expB", "expC"]
     rfl rfl (by decide) (by decide)⟩

/-- C5: a confirmed `log_metric` turn with a resolved run id and metric key
whose metric value fails float coercion yields `needs_clarification` with the
message naming the offending value, and performs no tracking call at all (in
particular the log-metric operation is never invoked). -/
theorem log_metric_non_numeric (ext : ExtServices) (other : OtherBranches)
    (sdata : SData) (pr : ParsedResponse) (rid kv v : EVal)
    (hi : pr.intent = "log_metric") (hc : pr.confirmation = "confirmed")
    (hr : eget pr.entities "run_id" = some rid) (hrt : truthy rid = true)
    (hk : pyOr (eget pr.entities "metric_key")
        (pyOr (eget pr.entities "metric_name") (eget pr.entities "key")) = some kv)
    (hkt : truthy kv = true)
    (hv : egetD pr.entities "metric_value" (eget pr.entities "value") = some v)
    (hvn : v ≠ .null)
    (hf : ext.pyFloat v = none) :
    (dispatch ext other sdata pr).response.confirmation = "needs_clarification" ∧
    (dispatch ext other sdata pr).response.message = metricNotNumberMsg v ∧
    (dispatch ext other sdata pr).calls = [] := by
  have hdd := dispatch_eq_logMetric ext other sdata pr hi hc
  have ho : otruthy (eget pr.entities "run_id") = true := by
    rw [hr]
    simpa [otruthy] using hrt
  rw [hdd]
  simp only [logMetricBranch]
  rw [if_pos ho, hr]
  simp only []
  rw [hk, hv]
  simp only []
  rw [if_pos hkt, if_neg hvn, hf]
  exact ⟨by simp [clarify], by simp [clarify], rfl⟩

/-- A confirmed `log_metric` request with an explicit run id and a
non-numeric metric value. -/
def nonNumericMetricPr : ParsedResponse :=
  { intent := "log_metric", confirmation := "confirmed", message := "",
    entities := [("run_id", .str "run42"), ("metric_key", .str "accuracy"),
      ("metric_value", .str "abc")] }

/-- Witness for C5 at the concrete `abc` metric value. -/
theorem log_metric_non_numeric_witness :
    (nonNumericMetricPr.intent = "log_metric" ∧
     nonNumericMetricPr.confirmation = "confirmed" ∧
     eget nonNumericMetricPr.entities "run_id" = some (.str "run42") ∧
     truthy (.str "run42") = true ∧
     pyOr (eget nonNumericMetricPr.entities "metric_key")
       (pyOr (eget nonNumericMetricPr.entities "metric_name")
         (eget nonNumericMetricPr.entities "key")) = some (.str "accuracy") ∧
     truthy (.str "accuracy") = true ∧
     egetD nonNumericMetricPr.entities "metric_value"
       (eget nonNumericMetricPr.entities "value") = some (.str "abc") ∧
     (EVal.str "abc") ≠ .null ∧
     extNone.pyFloat (.str "abc") = none) ∧
    ((dispatch extNone idOther [] nonNumericMetricPr).response.confirmation =
       "needs_clarification" ∧
     (dispatch extNone idOther [] nonNumericMetricPr).response.message =
       metricNotNumberMsg (.str "abc") ∧
     (dispatch extNone idOther [] nonNumericMetricPr).calls = []) :=
  ⟨⟨rfl, rfl, by decide, by decide, by decide, by decide, by decide, by decide, rfl⟩,
   log_metric_non_numeric extNone idOther [] nonNumericMetricPr (.str "run42")
     (.str "accuracy") (.str "abc") rfl rfl (by decide) (by decide) (by decide)
     (by decide) (by decide) (by decide) rfl⟩

lemma dispatch_create_run_stores_run (ext : ExtServices) (other : OtherBranches)
    (sdata : SData) (pr : ParsedResponse) (eidv : EVal) (cmsg : String) (rid : String)
    (hi : pr.intent = "create_run") (hc : pr.confirmation = "confirmed")
    (heid : eget pr.entities "experiment_id" = some eidv) (heidt : truthy eidv = true)
    (hcr : ext.create_run eidv (eget pr.entities "run_name") = (true, cmsg, some rid)) :
    (dispatch ext other sdata pr).sdata = setSD sdata "current_run_id" (.str rid) := by
  have ho : otruthy (eget pr.entities "experiment_id") = true := by
    rw [heid]
    simpa [otruthy] using heidt
  rw [dispatch_eq_createRun ext other sdata pr hi hc]
  simp only [createRunBranch]
  rw [if_neg (by simp [ho]), if_neg (by simp [ho]), heid]
  simp only []
  rw [if_pos heidt, hcr]
  simp [optRunIdVal]

lemma dispatch_log_metric_scratchpad (ext : ExtServices) (other : OtherBranches)
    (sdata : SData) (pr : ParsedResponse) (rid kv v : EVal) (f : Int)
    (hi : pr.intent = "log_metric") (hc : pr.confirmation = "confirmed")
    (hnorid : otruthy (eget pr.entities "run_id") = false)
    (hsd : getSD sdata "current_run_id" = some rid)
    (hk : pyOr (eget pr.entities "metric_key")
        (pyOr (eget pr.entities "metric_name") (eget pr.entities "key")) = some kv)
    (hkt : truthy kv = true)
    (hv : egetD pr.entities "metric_value" (eget pr.entities "value") = some v)
    (hvn : v ≠ .null)
    (hf : ext.pyFloat v = some f) :
    (dispatch ext other sdata pr).calls =
      [TrackCall.logMetricCall rid kv f (stepOf pr.entities)] := by
  rw [dispatch_eq_logMetric ext other sdata pr hi hc]
  simp only [logMetricBranch]
  rw [if_neg (by simp [hnorid]), hsd]
  simp only []
  rw [hk, hv]
  simp only []
  rw [if_pos hkt, if_neg hvn, hf]
  simp only []
  split
  · rfl
  · rfl

/-- C9: after a turn whose confirmed `create_run` succeeded (storing the new
run id under `current_run_id`), a later confirmed `log_metric` turn of the
same session with no `run_id` entity resolves the run id from the session
scratchpad: its single tracking call logs the metric against exactly the run
id created in the first turn, with no clarification asked for the run id. -/
theorem scratchpad_run_id_resolution (env1 env2 : TurnEnv) (ext : ExtServices)
    (other : OtherBranches) (now1 now2 : Int) (st : List InvitationCode) (ss : Sessions)
    (sid q1 q2 code raw1 raw2 : String) (pr1 pr2 : ParsedResponse)
    (m1 m2 : String) (r1 r2 mx1 mx2 : Int) (b1 b2 : Bool)
    (eidv : EVal) (cmsg : String) (rid : String) (kv v : EVal) (f : Int)
    (hval1 : (validate_code st now1 code sid).1 = .valid m1 r1 mx1 b1)
    (hcl1 : env1.classifier = .ok raw1)
    (hp1 : env1.parseJson raw1 = some pr1)
    (hi1 : pr1.intent = "create_run") (hc1 : pr1.confirmation = "confirmed")
    (heid : eget pr1.entities "experiment_id" = some eidv)
    (heidt : truthy eidv = true)
    (hcr : ext.create_run eidv (eget pr1.entities "run_name") = (true, cmsg, some rid))
    (hval2 : (validate_code
        (chatbot_mlflow env1 ext other now1 st ss sid q1 code).invStore
        now2 code sid).1 = .valid m2 r2 mx2 b2)
    (hcl2 : env2.classifier = .ok raw2)
    (hp2 : env2.parseJson raw2 = some pr2)
    (hi2 : pr2.intent = "log_metric") (hc2 : pr2.confirmation = "confirmed")
    (hnorid : otruthy (eget pr2.entities "run_id") = false)
    (hk : pyOr (eget pr2.entities "metric_key")
        (pyOr (eget pr2.entities "metric_name") (eget pr2.entities "key")) = some kv)
    (hkt : truthy kv = true)
    (hv : egetD pr2.entities "metric_value" (eget pr2.entities "value") = some v)
    (hvn : v ≠ .null)
    (hf : ext.pyFloat v = some f) :
    (chatbot_mlflow env2 ext other now2
      (chatbot_mlflow env1 ext other now1 st ss sid q1 code).invStore
      (chatbot_mlflow env1 ext other now1 st ss sid q1 code).sessions
      sid q2 code).calls =
      [TrackCall.logMetricCall (.str rid) kv f (stepOf pr2.entities)] := by
  obtain ⟨_, _, h1data, _, _⟩ :=
    chatbot_ok_projections env1 ext other now1 st ss sid q1 code raw1 pr1 m1 r1 mx1 b1
      hval1 hcl1 hp1
  obtain ⟨_, h2calls, _, _, _⟩ :=
    chatbot_ok_projections env2 ext other now2
      (chatbot_mlflow env1 ext other now1 st ss sid q1 code).invStore
      (chatbot_mlflow env1 ext other now1 st ss sid q1 code).sessions
      sid q2 code raw2 pr2 m2 r2 mx2 b2 hval2 hcl2 hp2
  rw [h2calls]
  have hsd : getSD (turnSData
      (chatbot_mlflow env1 ext other now1 st ss sid q1 code).invStore
      (chatbot_mlflow env1 ext other now1 st ss sid q1 code).sessions
      now2 sid q2 code r2 mx2) "current_run_id" = some (.str rid) := by
    unfold turnSData
    rw [getSD_setSD_ne _ _ _ _ (by decide), getSD_setSD_ne _ _ _ _ (by decide),
      getSD_setSD_ne _ _ _ _ (by decide), getSD_setSD_ne _ _ _ _ (by decide)]
    rw [data_appendHistory, h1data,
      dispatch_create_run_stores_run ext other _ pr1 eidv cmsg rid hi1 hc1 heid heidt hcr,
      getSD_setSD_self]
  exact dispatch_log_metric_scratchpad ext other _ pr2 (.str rid) kv v f hi2 hc2
    hnorid hsd hk hkt hv hvn hf

/-- Tracking client for the two-turn demo: run creation succeeds and returns
`runX999`, metric logging succeeds, and `0.95` parses as a float. -/
def extRunDemo : ExtServices :=
  { extNone with
    create_run := fun _ _ =>
      (true, "Run created in experiment 7, run_id: runX999", some "runX999"),
    log_metric := fun _ _ _ _ => (true, "logged"),
    pyFloat := fun v => match v with | .str "0.95" => some 95 | _ => none }

/-- A confirmed `create_run` request with an explicit experiment id. -/
def createRunPr : ParsedResponse :=
  { intent := "create_run", confirmation := "confirmed", message := "",
    entities := [("experiment_id", .str "7")] }

/-- A confirmed `log_metric` request that omits the run id. -/
def logMetricNoRunPr : ParsedResponse :=
  { intent := "log_metric", confirmation := "confirmed", message := "",
    entities := [("metric_key", .str "accuracy"), ("metric_value", .str "0.95")] }

/-- First demo turn: the classifier asks to create a run. -/
def envTurn1 : TurnEnv :=
  { classifier := .ok "raw1", parseJson := fun _ => some createRunPr }

/-- Second demo turn: the classifier asks to log a metric with no run id. -/
def envTurn2 : TurnEnv :=
  { classifier := .ok "raw2", parseJson := fun _ => some logMetricNoRunPr }

/-- Witness for C9 at the concrete two-turn session. -/
theorem scratchpad_run_id_resolution_witness :
    ((validate_code [tokenFresh] 5 "abcd1234" "s1").1 = .valid validCodeMsg 7 10 true ∧
     envTurn1.classifier = .ok "raw1" ∧
     envTurn1.parseJson "raw1" = some createRunPr ∧
     createRunPr.intent = "create_run" ∧
     createRunPr.confirmation = "confirmed" ∧
     eget createRunPr.entities "experiment_id" = some (.str "7") ∧
     truthy (.str "7") = true ∧
     extRunDemo.create_run (.str "7") (eget createRunPr.entities "run_name") =
       (true, "Run created in experiment 7, run_id: runX999", some "runX999") ∧
     (validate_code (chatbot_mlflow envTurn1 extRunDemo idOther 5 [tokenFresh] []
        "s1" "q1" "abcd1234").invStore 6 "abcd1234" "s1").1 =
       .valid validCodeMsg 6 10 false ∧
     envTurn2.classifier = .ok "raw2" ∧
     envTurn2.parseJson "raw2" = some logMetricNoRunPr ∧
     logMetricNoRunPr.intent = "log_metric" ∧
     logMetricNoRunPr.confirmation = "confirmed" ∧
     otruthy (eget logMetricNoRunPr.entities "run_id") = false ∧
     pyOr (eget logMetricNoRunPr.entities "metric_key")
       (pyOr (eget logMetricNoRunPr.entities "metric_name")
         (eget logMetricNoRunPr.entities "key")) = some (.str "accuracy") ∧
     truthy (.str "accuracy") = true ∧
     egetD logMetricNoRunPr.entities "metric_value"
       (eget logMetricNoRunPr.entities "value") = some (.str "0.95") ∧
     (EVal.str "0.95") ≠ .null ∧
     extRunDemo.pyFloat (.str "0.95") = some 95) ∧
    (chatbot_mlflow envTurn2 extRunDemo idOther 6
      (chatbot_mlflow envTurn1 extRunDemo idOther 5 [tokenFresh] [] "s1" "q1"
        "abcd1234").invStore
      (chatbot_mlflow envTurn1 extRunDemo idOther 5 [tokenFresh] [] "s1" "q1"
        "abcd1234").sessions
      "s1" "q2" "abcd1234").calls =
      [TrackCall.logMetricCall (.str "runX999") (.str "accuracy") 95
        (stepOf logMetricNoRunPr.entities)] :=
  ⟨⟨by decide, rfl, rfl, rfl, rfl, by decide, by decide, by decide, by decide, rfl, rfl,
    rfl, rfl, by decide, by decide, by decide, by decide, by decide, by decide⟩,
   scratchpad_run_id_resolution envTurn1 envTurn2 extRunDemo idOther 5 6 [tokenFresh] []
     "s1" "q1" "q2" "abcd1234" "raw1" "raw2" createRunPr logMetricNoRunPr
     validCodeMsg validCodeMsg 7 6 10 10 true false (.str "7")
     "Run created in experiment 7, run_id: runX999" "runX999" (.str "accuracy")
     (.str "0.95") 95
     (by decide) rfl rfl rfl rfl (by decide) (by decide) (by decide) (by decide) rfl rfl
     rfl rfl (by decide) (by decide) (by decide) (by decide) (by decide) (by decide)⟩
